import Mathlib

/-!
Verification development for the heart-disease prediction backend
(`src/backend/app.py`). The inference pipeline of the `/api/predict` route and
the recommendation engine `get_recommendation` are shallowly embedded below.

Modelling conventions:
* JSON/Python scalar values arriving in the request record are modelled by
  `PyVal` (integers, floats as exact rationals, strings). Python floats are
  modelled as rationals; a decimal constant such as `0.33` in the source is
  written `mkRat 33 100`, the same exact rational in a kernel-reducible form
  (the scientific-literal and field-arithmetic functions on `Rat` are not
  kernel-friendly). The comparisons below agree with the source comparisons
  at every rational input.
* A Python dict is an association list `List (String × PyVal)` with
  first-match lookup.
* Python `float(x)` and `int(x)` are modelled by `pyFloat` / `pyInt`, which can
  fail (raise) with a `PyErr` carrying `str(e)`. The string-literal parsers
  cover the decimal fragment (optional sign, digits, optional fractional part
  for floats); exponent forms, underscores, and inf/nan are outside the
  fragment and no proof below evaluates the parsers on such inputs. Python
  error messages wrap the offending value in single quotes; the model keeps
  the message text without the quote characters.
* `int(float)` truncates toward zero, modelled by `ratTrunc`.
* The trained model and fitted scaler are opaque; `predict` takes them as
  function parameters `tr` (scaler.transform), `mp` (model.predict composed
  with `[0]`), `mpp` (model.predict_proba composed with `[0]`, as the pair
  `(p0, p1)`).
* Exceptions inside the route body are modelled by `Except PyErr`; the
  route-level `try/except` maps an error to the `({error: str(e)}, 500)`
  response, mirroring `app.py` line 105.
-/

/-- A Python scalar value as it can appear in the request record. -/
inductive PyVal where
  | vInt : Int → PyVal
  | vFloat : ℚ → PyVal
  | vStr : String → PyVal
deriving DecidableEq, Repr

/-- A raised Python exception, carrying `str(e)`. -/
structure PyErr where
  msg : String
deriving DecidableEq, Repr

/-- The numeric value of a digit list, most significant first. -/
def digitsVal (cs : List Char) : Nat :=
  cs.foldl (fun a c => a * 10 + (c.toNat - Char.toNat (Char.ofNat 48))) 0

/-- All characters are decimal digits. -/
def allDigits (cs : List Char) : Bool :=
  cs.all Char.isDigit

/-- Digit-only integer literal body, as in Python `int(str)` after sign. -/
def digitsToNat? (cs : List Char) : Option Nat :=
  if cs ≠ [] ∧ allDigits cs then some (digitsVal cs) else none

/-- Strip leading and trailing whitespace, as Python numeric conversion
does before parsing. -/
def trimChars (cs : List Char) : List Char :=
  ((cs.dropWhile Char.isWhitespace).reverse.dropWhile Char.isWhitespace).reverse

/-- Python `int(str)` on a trimmed, optionally signed decimal literal. -/
def parseIntLit (s : String) : Option Int :=
  match trimChars s.toList with
  | [] => none
  | c :: cs =>
    if c = Char.ofNat 43 then (digitsToNat? cs).map Int.ofNat
    else if c = Char.ofNat 45 then (digitsToNat? cs).map (fun n => -(n : Int))
    else (digitsToNat? (c :: cs)).map Int.ofNat

/-- Unsigned decimal float literal body: `digits`, `digits.digits`,
`digits.` or `.digits`. -/
def parseUnsignedFloat (cs : List Char) : Option ℚ :=
  let ip := cs.takeWhile (fun c => c ≠ Char.ofNat 46)
  let rest := cs.dropWhile (fun c => c ≠ Char.ofNat 46)
  match rest with
  | [] => (digitsToNat? cs).map (fun n => (n : ℚ))
  | _ :: fp =>
    if allDigits ip ∧ allDigits fp ∧ (ip ≠ [] ∨ fp ≠ []) ∧ fp.all (fun c => c ≠ Char.ofNat 46) then
      some ((digitsVal ip : ℚ) + (digitsVal fp : ℚ) / ((10 : ℚ) ^ fp.length))
    else none

/-- Python `float(str)` on a trimmed, optionally signed decimal literal. -/
def parseFloatLit (s : String) : Option ℚ :=
  match trimChars s.toList with
  | [] => none
  | c :: cs =>
    if c = Char.ofNat 43 then parseUnsignedFloat cs
    else if c = Char.ofNat 45 then (parseUnsignedFloat cs).map Neg.neg
    else parseUnsignedFloat (c :: cs)

/-- Truncation toward zero, the behaviour of Python `int(float)`.
`Int.div` is T-division, so this rounds toward zero. -/
def ratTrunc (q : ℚ) : Int :=
  Int.tdiv q.num (q.den : Int)

/-- Python `float(x)` on a record value; raises `ValueError` on an
unparsable string. -/
def pyFloat : PyVal → Except PyErr ℚ
  | .vInt n => .ok (n : ℚ)
  | .vFloat q => .ok q
  | .vStr s =>
    match parseFloatLit s with
    | some q => .ok q
    | none => .error ⟨"could not convert string to float: " ++ s⟩

/-- Python `int(x)` on a record value; truncates floats toward zero and
raises `ValueError` on a string that is not an integer literal
(e.g. `int("60.5")` raises even though `float("60.5")` succeeds). -/
def pyInt : PyVal → Except PyErr Int
  | .vInt n => .ok n
  | .vFloat q => .ok (ratTrunc q)
  | .vStr s =>
    match parseIntLit s with
    | some n => .ok n
    | none => .error ⟨"invalid literal for int() with base 10: " ++ s⟩

/-- The request record: a Python dict of field name to value. -/
abbrev PyDict : Type := List (String × PyVal)

/-- Python `key in data`. -/
def dictContains (data : PyDict) (key : String) : Bool :=
  (List.lookup key data).isSome

/-- Python `data.get(key, default)`. -/
def dictGet (data : PyDict) (key : String) (dflt : PyVal) : PyVal :=
  (List.lookup key data).getD dflt

/-- Python `data[key]`; raises `KeyError` when absent. -/
def pyDictItem (data : PyDict) (key : String) : Except PyErr PyVal :=
  match List.lookup key data with
  | some v => .ok v
  | none => .error ⟨key⟩

/-- `FEATURE_NAMES` from `app.py` line 41: the 13 required fields in
canonical order. -/
def FEATURE_NAMES : List String :=
  ["age", "sex", "cp", "trestbps", "chol", "fbs", "restecg", "thalach",
   "exang", "oldpeak", "slope", "ca", "thal"]

/-- Advisory for rule 1 (`age > 60`), `app.py` line 113. -/
def msgAge : String :=
  "Your age is a significant risk factor. Regular medical checkups are essential."

/-- Advisory for rule 2 (`chol > 240`), `app.py` line 116. -/
def msgChol : String :=
  "Your cholesterol level is high. Consider dietary changes and consult your doctor."

/-- Advisory for rule 3 (`trestbps > 140`), `app.py` line 119. -/
def msgBp : String :=
  "Your blood pressure is elevated. Monitor regularly and reduce sodium intake."

/-- Advisory for rule 4 (`thalach < 100`), `app.py` line 122. -/
def msgThalach : String :=
  "Your maximum heart rate is low. Increase physical activity gradually."

/-- Advisory for rule 5 (`exang == 1`), `app.py` line 125. -/
def msgExang : String :=
  "You experience exercise-induced angina. Consult a cardiologist before strenuous activity."

/-- Urgent-consultation final message, `app.py` line 128 (the source string
starts with a mangled warning-emoji prefix, reproduced byte-for-byte). -/
def msgUrgent : String :=
  "âš ï¸ URGENT: Seek immediate medical consultation from a cardiologist."

/-- Schedule-evaluation final message, `app.py` line 130. -/
def msgSchedule : String :=
  "Schedule a detailed cardiac evaluation with your physician."

/-- Maintain-healthy-habits final message, `app.py` line 132. -/
def msgMaintain : String :=
  "Maintain healthy lifestyle habits and annual checkups."

/-- The final overall message appended by `get_recommendation`
(`app.py` lines 127-132); `mkRat 7 10` is the source constant `0.7` and
`mkRat 1 2` the source constant `0.5`. -/
def finalMessage (risk_score : ℚ) : String :=
  if risk_score > mkRat 7 10 then msgUrgent
  else if risk_score > mkRat 1 2 then msgSchedule
  else msgMaintain

/-- `get_recommendation(data, risk_score)` from `app.py` lines 108-134.
Each rule reads its field with `int(data.get(field, 0))`; a raising `int()`
propagates as the except value, aborting the whole call, exactly as a Python
exception would. Evaluation order is the source order:
age, chol, trestbps, thalach, exang, then the final message. -/
def get_recommendation (data : PyDict) (risk_score : ℚ) : Except PyErr (List String) :=
  match pyInt (dictGet data "age" (PyVal.vInt 0)) with
  | .error e => .error e
  | .ok ageV =>
    let recommendations : List String := if ageV > 60 then [msgAge] else []
    match pyInt (dictGet data "chol" (PyVal.vInt 0)) with
    | .error e => .error e
    | .ok cholV =>
      let recommendations := if cholV > 240 then recommendations ++ [msgChol] else recommendations
      match pyInt (dictGet data "trestbps" (PyVal.vInt 0)) with
      | .error e => .error e
      | .ok trestbpsV =>
        let recommendations := if trestbpsV > 140 then recommendations ++ [msgBp] else recommendations
        match pyInt (dictGet data "thalach" (PyVal.vInt 0)) with
        | .error e => .error e
        | .ok thalachV =>
          let recommendations := if thalachV < 100 then recommendations ++ [msgThalach] else recommendations
          match pyInt (dictGet data "exang" (PyVal.vInt 0)) with
          | .error e => .error e
          | .ok exangV =>
            let recommendations := if exangV = 1 then recommendations ++ [msgExang] else recommendations
            let recommendations :=
              if risk_score > mkRat 7 10 then recommendations ++ [msgUrgent]
              else if risk_score > mkRat 1 2 then recommendations ++ [msgSchedule]
              else recommendations ++ [msgMaintain]
            .ok recommendations

/-- The risk-level classification of `app.py` lines 83-91: maps
`risk_score = probability[1]` to `(risk_level, color)`. -/
def classifyRisk (risk_score : ℚ) : String × String :=
  if risk_score < mkRat 33 100 then ("LOW RISK", "green")
  else if risk_score < mkRat 66 100 then ("MODERATE RISK", "orange")
  else ("HIGH RISK", "red")

/-- The list comprehension `[float(data[feature]) for feature in FEATURE_NAMES]`
of `app.py` line 72: left-to-right, the first raising `float()` aborts. -/
def floatFeatures (data : PyDict) : List String → Except PyErr (List ℚ)
  | [] => .ok []
  | k :: ks =>
    match pyDictItem data k with
    | .error e => .error e
    | .ok v =>
      match pyFloat v with
      | .error e => .error e
      | .ok q =>
        match floatFeatures data ks with
        | .error e => .error e
        | .ok qs => .ok (q :: qs)

/-- The successful response payload of `app.py` lines 93-101. -/
structure PredictResult where
  prediction : Int
  risk_probability : ℚ
  disease_probability : ℚ
  no_disease_probability : ℚ
  risk_level : String
  color : String
  recommendation : List String
deriving DecidableEq, Repr

/-- A JSON body returned by the route: either the result payload or an
`{error: msg}` object. -/
inductive Body where
  | result : PredictResult → Body
  | err : String → Body
deriving DecidableEq, Repr

/-- A `(jsonify(body), status)` pair as returned by the route. -/
structure ApiResponse where
  body : Body
  status : Nat
deriving DecidableEq, Repr

/-- HTTP status classes: a client-input error is a 4xx status. -/
def isClientError (status : Nat) : Bool :=
  400 ≤ status && status < 500

/-- The `/api/predict` route body, `app.py` lines 62-106. `tr`, `mp`, `mpp`
are the opaque fitted scaler and trained model (`scaler.transform`,
`model.predict(...)[0]`, `model.predict_proba(...)[0]` as `(p0, p1)`).
Any exception in the body yields the `(str(e), 500)` response of the
blanket handler at line 105. -/
def predict (tr : List ℚ → List ℚ) (mp : List ℚ → Int) (mpp : List ℚ → ℚ × ℚ)
    (data : PyDict) : ApiResponse :=
  if ¬ (FEATURE_NAMES.all fun key => dictContains data key) then
    ⟨Body.err "Missing required fields", 400⟩
  else
    match floatFeatures data FEATURE_NAMES with
    | .error e => ⟨Body.err e.msg, 500⟩
    | .ok features =>
      let features_scaled := tr features
      let prediction := mp features_scaled
      let probability := mpp features_scaled
      let risk_score := probability.2
      let rlc := classifyRisk risk_score
      match get_recommendation data risk_score with
      | .error e => ⟨Body.err e.msg, 500⟩
      | .ok recommendation =>
        ⟨Body.result
          { prediction := prediction
            risk_probability := probability.2
            disease_probability := probability.2 * 100
            no_disease_probability := probability.1 * 100
            risk_level := rlc.1
            color := rlc.2
            recommendation := recommendation }, 200⟩

/-- Specification-side restatement of rules 1-5 in declaration order: the
advisories contributed by the five thresholds on the already-truncated
integer values. -/
def ruleAdvisories (ageV cholV trestbpsV thalachV exangV : Int) : List String :=
  (if ageV > 60 then [msgAge] else []) ++
  (if cholV > 240 then [msgChol] else []) ++
  (if trestbpsV > 140 then [msgBp] else []) ++
  (if thalachV < 100 then [msgThalach] else []) ++
  (if exangV = 1 then [msgExang] else [])

/-- Deterministic stub scaler: identity transform. -/
def stubTransform (v : List ℚ) : List ℚ := v

/-- Deterministic stub classifier label. -/
def stubPredict (_ : List ℚ) : Int := 0

/-- Deterministic stub class probabilities `(p0, p1)` with `p1 = 0.2`. -/
def stubProba (_ : List ℚ) : ℚ × ℚ := (mkRat 4 5, mkRat 1 5)

/-- A validated record (all 13 fields present, all float-coercible) whose
`age` value `60.5` is a non-integer float; every other field triggers no
advisory rule. -/
def dataAgeHalf : PyDict :=
  [("age", PyVal.vFloat (mkRat 121 2)), ("sex", PyVal.vInt 1), ("cp", PyVal.vInt 0),
   ("trestbps", PyVal.vInt 120), ("chol", PyVal.vInt 200), ("fbs", PyVal.vInt 0),
   ("restecg", PyVal.vInt 0), ("thalach", PyVal.vInt 150), ("exang", PyVal.vInt 0),
   ("oldpeak", PyVal.vFloat (mkRat 1 2)), ("slope", PyVal.vInt 1), ("ca", PyVal.vInt 0),
   ("thal", PyVal.vInt 2)]

/-- A record with all 13 required fields present but a non-numeric `age`. -/
def dataAbc : PyDict :=
  [("age", PyVal.vStr "abc"), ("sex", PyVal.vInt 1), ("cp", PyVal.vInt 0),
   ("trestbps", PyVal.vInt 120), ("chol", PyVal.vInt 200), ("fbs", PyVal.vInt 0),
   ("restecg", PyVal.vInt 0), ("thalach", PyVal.vInt 150), ("exang", PyVal.vInt 0),
   ("oldpeak", PyVal.vFloat (mkRat 1 2)), ("slope", PyVal.vInt 1), ("ca", PyVal.vInt 0),
   ("thal", PyVal.vInt 2)]

/-- The recommendation-ordering record of the spec (section 8):
`{age:65, chol:250, trestbps:150, thalach:90, exang:1}`. -/
def dataAllRules : PyDict :=
  [("age", PyVal.vInt 65), ("chol", PyVal.vInt 250), ("trestbps", PyVal.vInt 150),
   ("thalach", PyVal.vInt 90), ("exang", PyVal.vInt 1)]

/-- The end-to-end record of the spec (section 8): no advisory rule fires. -/
def dataEndToEnd : PyDict :=
  [("age", PyVal.vInt 45), ("sex", PyVal.vInt 1), ("cp", PyVal.vInt 0),
   ("trestbps", PyVal.vInt 120), ("chol", PyVal.vInt 200), ("fbs", PyVal.vInt 0),
   ("restecg", PyVal.vInt 0), ("thalach", PyVal.vInt 150), ("exang", PyVal.vInt 0),
   ("oldpeak", PyVal.vFloat (mkRat 1 2)), ("slope", PyVal.vInt 1), ("ca", PyVal.vInt 0),
   ("thal", PyVal.vInt 2)]

deriving instance DecidableEq for Except

/-- The coerced feature vector of `dataEndToEnd`. -/
def endFeatures : List ℚ :=
  [45, 1, 0, 120, 200, 0, 0, 150, 0, mkRat 1 2, 1, 0, 2]

/-- `dataEndToEnd` with an additional, unrequired key. -/
def dataExtra : PyDict :=
  dataEndToEnd ++ [("extra", PyVal.vInt 7)]

/-! ## Structural lemmas about the recommendation engine -/

/-- Conditionally appending to an accumulator is appending a conditional
singleton block. -/
theorem append_if (p : Prop) [Decidable p] (l x : List String) :
    (if p then l ++ x else l) = l ++ (if p then x else []) := by
  split_ifs <;> simp

/-- The trailing if/elif/else of `get_recommendation` appends exactly
`finalMessage`. -/
theorem final_if_eq (R : List String) (s : ℚ) :
    (if s > mkRat 7 10 then R ++ [msgUrgent]
     else if s > mkRat 1 2 then R ++ [msgSchedule]
     else R ++ [msgMaintain]) = R ++ [finalMessage s] := by
  unfold finalMessage
  split_ifs <;> rfl

/-- When all five rule fields coerce, `get_recommendation` succeeds and
returns the declared-order advisories followed by the final message. -/
theorem get_recommendation_ok (data : PyDict) (s : ℚ) (a c tb th ex : Int)
    (ha : pyInt (dictGet data "age" (PyVal.vInt 0)) = .ok a)
    (hc : pyInt (dictGet data "chol" (PyVal.vInt 0)) = .ok c)
    (htb : pyInt (dictGet data "trestbps" (PyVal.vInt 0)) = .ok tb)
    (hth : pyInt (dictGet data "thalach" (PyVal.vInt 0)) = .ok th)
    (hex : pyInt (dictGet data "exang" (PyVal.vInt 0)) = .ok ex) :
    get_recommendation data s = .ok (ruleAdvisories a c tb th ex ++ [finalMessage s]) := by
  unfold get_recommendation
  rw [ha, hc, htb, hth, hex]
  dsimp only
  rw [final_if_eq]
  unfold ruleAdvisories
  simp only [append_if, List.append_assoc]
  split_ifs <;> simp

/-- A successful `get_recommendation` run determines five coerced field
values, and the output is the declared-order advisories plus final message. -/
theorem get_recommendation_inv (data : PyDict) (s : ℚ) (l : List String)
    (h : get_recommendation data s = .ok l) :
    ∃ a c tb th ex : Int,
      pyInt (dictGet data "age" (PyVal.vInt 0)) = .ok a ∧
      pyInt (dictGet data "chol" (PyVal.vInt 0)) = .ok c ∧
      pyInt (dictGet data "trestbps" (PyVal.vInt 0)) = .ok tb ∧
      pyInt (dictGet data "thalach" (PyVal.vInt 0)) = .ok th ∧
      pyInt (dictGet data "exang" (PyVal.vInt 0)) = .ok ex ∧
      l = ruleAdvisories a c tb th ex ++ [finalMessage s] := by
  cases hA : pyInt (dictGet data "age" (PyVal.vInt 0)) with
  | error e => unfold get_recommendation at h; rw [hA] at h; simp at h
  | ok a =>
  cases hC : pyInt (dictGet data "chol" (PyVal.vInt 0)) with
  | error e => unfold get_recommendation at h; rw [hA, hC] at h; simp at h
  | ok c =>
  cases hTb : pyInt (dictGet data "trestbps" (PyVal.vInt 0)) with
  | error e => unfold get_recommendation at h; rw [hA, hC, hTb] at h; simp at h
  | ok tb =>
  cases hTh : pyInt (dictGet data "thalach" (PyVal.vInt 0)) with
  | error e => unfold get_recommendation at h; rw [hA, hC, hTb, hTh] at h; simp at h
  | ok th =>
  cases hEx : pyInt (dictGet data "exang" (PyVal.vInt 0)) with
  | error e => unfold get_recommendation at h; rw [hA, hC, hTb, hTh, hEx] at h; simp at h
  | ok ex =>
    have key := get_recommendation_ok data s a c tb th ex hA hC hTb hTh hEx
    rw [key] at h
    injection h with h
    exact ⟨a, c, tb, th, ex, rfl, rfl, rfl, rfl, rfl, h.symm⟩

/-- Membership in the declared-order advisory list, by message. -/
theorem mem_ruleAdvisories_iff (a c tb th ex : Int) (m : String) :
    m ∈ ruleAdvisories a c tb th ex ↔
      (m = msgAge ∧ 60 < a) ∨ (m = msgChol ∧ 240 < c) ∨ (m = msgBp ∧ 140 < tb) ∨
      (m = msgThalach ∧ th < 100) ∨ (m = msgExang ∧ ex = 1) := by
  unfold ruleAdvisories
  by_cases h1 : a > 60 <;> by_cases h2 : c > 240 <;> by_cases h3 : tb > 140 <;>
    by_cases h4 : th < 100 <;> by_cases h5 : ex = 1 <;>
      simp [h1, h2, h3, h4, h5]

/-- The final message is always one of the three overall messages. -/
theorem finalMessage_cases (s : ℚ) :
    finalMessage s = msgUrgent ∨ finalMessage s = msgSchedule ∨ finalMessage s = msgMaintain := by
  unfold finalMessage
  split_ifs <;> simp

/-- The five rule advisories differ from the three final messages. -/
theorem ruleMsg_ne_finalMsg :
    ∀ m ∈ [msgAge, msgChol, msgBp, msgThalach, msgExang],
      m ≠ msgUrgent ∧ m ≠ msgSchedule ∧ m ≠ msgMaintain := by
  decide

/-- Membership of a rule advisory in the engine output, by coerced value. -/
theorem mem_output_iff (a c tb th ex : Int) (s : ℚ) (m : String)
    (hm : m ∈ [msgAge, msgChol, msgBp, msgThalach, msgExang]) :
    m ∈ ruleAdvisories a c tb th ex ++ [finalMessage s] ↔ m ∈ ruleAdvisories a c tb th ex := by
  have hne := ruleMsg_ne_finalMsg m hm
  rcases finalMessage_cases s with h | h | h <;>
    simp [List.mem_append, h, hne.1, hne.2.1, hne.2.2]

/-! ## Congruence lemmas: the pipeline reads only the 13 required keys -/

/-- Feature extraction only reads the listed keys. -/
theorem floatFeatures_congr (data1 data2 : PyDict) (ks : List String)
    (h : ∀ k ∈ ks, List.lookup k data1 = List.lookup k data2) :
    floatFeatures data1 ks = floatFeatures data2 ks := by
  induction ks with
  | nil => rfl
  | cons k ks ih =>
    have hk : pyDictItem data1 k = pyDictItem data2 k := by
      unfold pyDictItem
      rw [h k (by simp)]
    have ihh := ih (fun x hx => h x (by simp [hx]))
    simp only [floatFeatures, hk, ihh]

/-- The presence check only reads the listed keys. -/
theorem allContains_congr (data1 data2 : PyDict) (ks : List String)
    (h : ∀ k ∈ ks, List.lookup k data1 = List.lookup k data2) :
    (ks.all fun k => dictContains data1 k) = (ks.all fun k => dictContains data2 k) := by
  induction ks with
  | nil => rfl
  | cons k ks ih =>
    have hk : dictContains data1 k = dictContains data2 k := by
      unfold dictContains
      rw [h k (by simp)]
    have ihh := ih (fun x hx => h x (by simp [hx]))
    simp [List.all_cons, hk, ihh]

/-- The recommendation engine only reads the five rule fields. -/
theorem get_recommendation_congr (data1 data2 : PyDict) (s : ℚ)
    (hage : List.lookup "age" data1 = List.lookup "age" data2)
    (hchol : List.lookup "chol" data1 = List.lookup "chol" data2)
    (htb : List.lookup "trestbps" data1 = List.lookup "trestbps" data2)
    (hth : List.lookup "thalach" data1 = List.lookup "thalach" data2)
    (hex : List.lookup "exang" data1 = List.lookup "exang" data2) :
    get_recommendation data1 s = get_recommendation data2 s := by
  unfold get_recommendation dictGet
  rw [hage, hchol, htb, hth, hex]

/-- The final messages never occur among the rule advisories. -/
theorem finalMsgs_not_mem_rules (a c tb th ex : Int) :
    msgUrgent ∉ ruleAdvisories a c tb th ex ∧
    msgSchedule ∉ ruleAdvisories a c tb th ex ∧
    msgMaintain ∉ ruleAdvisories a c tb th ex := by
  refine ⟨?_, ?_, ?_⟩ <;>
    · intro hmem
      rw [mem_ruleAdvisories_iff] at hmem
      rcases hmem with ⟨he, _⟩ | ⟨he, _⟩ | ⟨he, _⟩ | ⟨he, _⟩ | ⟨he, _⟩ <;> revert he <;> decide

/-- Rule-1 advisory membership. -/
theorem msgAge_mem_rules (a c tb th ex : Int) :
    msgAge ∈ ruleAdvisories a c tb th ex ↔ 60 < a := by
  rw [mem_ruleAdvisories_iff]
  constructor
  · rintro (⟨_, h⟩ | ⟨he, _⟩ | ⟨he, _⟩ | ⟨he, _⟩ | ⟨he, _⟩)
    · exact h
    all_goals exact absurd he (by decide)
  · intro h
    exact Or.inl ⟨rfl, h⟩

/-- Rule-2 advisory membership. -/
theorem msgChol_mem_rules (a c tb th ex : Int) :
    msgChol ∈ ruleAdvisories a c tb th ex ↔ 240 < c := by
  rw [mem_ruleAdvisories_iff]
  constructor
  · rintro (⟨he, _⟩ | ⟨_, h⟩ | ⟨he, _⟩ | ⟨he, _⟩ | ⟨he, _⟩)
    · exact absurd he (by decide)
    · exact h
    all_goals exact absurd he (by decide)
  · intro h
    exact Or.inr (Or.inl ⟨rfl, h⟩)

/-- Rule-3 advisory membership. -/
theorem msgBp_mem_rules (a c tb th ex : Int) :
    msgBp ∈ ruleAdvisories a c tb th ex ↔ 140 < tb := by
  rw [mem_ruleAdvisories_iff]
  constructor
  · rintro (⟨he, _⟩ | ⟨he, _⟩ | ⟨_, h⟩ | ⟨he, _⟩ | ⟨he, _⟩)
    · exact absurd he (by decide)
    · exact absurd he (by decide)
    · exact h
    all_goals exact absurd he (by decide)
  · intro h
    exact Or.inr (Or.inr (Or.inl ⟨rfl, h⟩))

/-- Rule-4 advisory membership. -/
theorem msgThalach_mem_rules (a c tb th ex : Int) :
    msgThalach ∈ ruleAdvisories a c tb th ex ↔ th < 100 := by
  rw [mem_ruleAdvisories_iff]
  constructor
  · rintro (⟨he, _⟩ | ⟨he, _⟩ | ⟨he, _⟩ | ⟨_, h⟩ | ⟨he, _⟩)
    · exact absurd he (by decide)
    · exact absurd he (by decide)
    · exact absurd he (by decide)
    · exact h
    · exact absurd he (by decide)
  · intro h
    exact Or.inr (Or.inr (Or.inr (Or.inl ⟨rfl, h⟩)))

/-- Rule-5 advisory membership. -/
theorem msgExang_mem_rules (a c tb th ex : Int) :
    msgExang ∈ ruleAdvisories a c tb th ex ↔ ex = 1 := by
  rw [mem_ruleAdvisories_iff]
  constructor
  · rintro (⟨he, _⟩ | ⟨he, _⟩ | ⟨he, _⟩ | ⟨he, _⟩ | ⟨_, h⟩)
    · exact absurd he (by decide)
    · exact absurd he (by decide)
    · exact absurd he (by decide)
    · exact absurd he (by decide)
    · exact h
  · intro h
    exact Or.inr (Or.inr (Or.inr (Or.inr ⟨rfl, h⟩)))

/-! ## Claim theorems -/

/-- C3: the risk tier and color are determined by fixed thresholds, lower
bound closed and upper bound open: `risk_score < 0.33` gives LOW RISK /
green, `0.33 <= risk_score < 0.66` gives MODERATE RISK / orange, and
`0.66 <= risk_score` gives HIGH RISK / red; in particular `0.33` maps to
MODERATE and `0.66` maps to HIGH. `classifyRisk` is a total function, so
there is no failure mode; `mkRat 33 100 = 33/100` and `mkRat 66 100 =
66/100` tie the model constants to the spec decimals. -/
theorem claim_C3_risk_tiers (s : ℚ) :
    (s < mkRat 33 100 → classifyRisk s = ("LOW RISK", "green"))
  ∧ (mkRat 33 100 ≤ s → s < mkRat 66 100 → classifyRisk s = ("MODERATE RISK", "orange"))
  ∧ (mkRat 66 100 ≤ s → classifyRisk s = ("HIGH RISK", "red"))
  ∧ classifyRisk (mkRat 33 100) = ("MODERATE RISK", "orange")
  ∧ classifyRisk (mkRat 66 100) = ("HIGH RISK", "red")
  ∧ (mkRat 33 100 : ℚ) = 33 / 100 ∧ (mkRat 66 100 : ℚ) = 66 / 100 := by
  refine ⟨fun h => ?_, fun h1 h2 => ?_, fun h => ?_, by decide, by decide,
    by rw [Rat.mkRat_eq_div]; norm_num, by rw [Rat.mkRat_eq_div]; norm_num⟩
  · unfold classifyRisk
    rw [if_pos h]
  · unfold classifyRisk
    rw [if_neg (not_lt.mpr h1), if_pos h2]
  · have h33 : ¬ s < mkRat 33 100 := not_lt.mpr (le_trans (by decide) h)
    unfold classifyRisk
    rw [if_neg h33, if_neg (not_lt.mpr h)]

/-- C3 witness: the tier map evaluated at 0.2, 0.33 and 0.66. -/
theorem claim_C3_witness :
    classifyRisk (mkRat 1 5) = ("LOW RISK", "green")
  ∧ classifyRisk (mkRat 33 100) = ("MODERATE RISK", "orange")
  ∧ classifyRisk (mkRat 66 100) = ("HIGH RISK", "red") :=
  ⟨(claim_C3_risk_tiers (mkRat 1 5)).1 (by decide),
   (claim_C3_risk_tiers (mkRat 33 100)).2.1 (by decide) (by decide),
   (claim_C3_risk_tiers (mkRat 66 100)).2.2.1 (by decide)⟩

/-- C4: every successful engine run ends with exactly one final overall
message chosen by mutually exclusive, exhaustive strict-greater-than rules
on `risk_score` (`> 0.7` urgent, else `> 0.5` schedule, else maintain);
the prefix contains no final message; `0.7` yields the schedule message
and `0.5` the maintain message. -/
theorem claim_C4_final_message (data : PyDict) (s : ℚ) (l : List String)
    (h : get_recommendation data s = .ok l) :
    (∃ pre, l = pre ++ [finalMessage s] ∧
      msgUrgent ∉ pre ∧ msgSchedule ∉ pre ∧ msgMaintain ∉ pre)
  ∧ (s > mkRat 7 10 → finalMessage s = msgUrgent)
  ∧ (¬ s > mkRat 7 10 → s > mkRat 1 2 → finalMessage s = msgSchedule)
  ∧ (¬ s > mkRat 7 10 → ¬ s > mkRat 1 2 → finalMessage s = msgMaintain)
  ∧ finalMessage (mkRat 7 10) = msgSchedule
  ∧ finalMessage (mkRat 1 2) = msgMaintain := by
  obtain ⟨a, c, tb, th, ex, _, _, _, _, _, hl⟩ := get_recommendation_inv data s l h
  have hnm := finalMsgs_not_mem_rules a c tb th ex
  refine ⟨⟨ruleAdvisories a c tb th ex, hl, hnm.1, hnm.2.1, hnm.2.2⟩,
    fun h7 => ?_, fun h7 h5 => ?_, fun h7 h5 => ?_, by decide, by decide⟩
  · unfold finalMessage
    rw [if_pos h7]
  · unfold finalMessage
    rw [if_neg h7, if_pos h5]
  · unfold finalMessage
    rw [if_neg h7, if_neg h5]

/-- C4 witness: instantiated on the empty record at risk score 0. -/
theorem claim_C4_witness :
    (∃ pre, [msgThalach, msgMaintain] = pre ++ [finalMessage 0] ∧
      msgUrgent ∉ pre ∧ msgSchedule ∉ pre ∧ msgMaintain ∉ pre)
  ∧ finalMessage (mkRat 7 10) = msgSchedule :=
  ⟨(claim_C4_final_message [] 0 [msgThalach, msgMaintain] (by decide)).1,
   (claim_C4_final_message [] 0 [msgThalach, msgMaintain] (by decide)).2.2.2.2.1⟩

/-- C1 counterexample: `dataAgeHalf` is a validated record (all 13 fields
present and float-coercible) whose raw age value `60.5` satisfies
`age > 60`, yet the engine output contains no age advisory, because the
source evaluates `int(data.get('age', 0)) > 60` and `int(60.5) = 60`. -/
theorem claim_C1_counterexample :
    (FEATURE_NAMES.all fun k => dictContains dataAgeHalf k) = true
  ∧ floatFeatures dataAgeHalf FEATURE_NAMES =
      .ok [mkRat 121 2, 1, 0, 120, 200, 0, 0, 150, 0, mkRat 1 2, 1, 0, 2]
  ∧ pyFloat (dictGet dataAgeHalf "age" (PyVal.vInt 0)) = .ok (mkRat 121 2)
  ∧ mkRat 121 2 > (60 : ℚ)
  ∧ get_recommendation dataAgeHalf (mkRat 1 5) = .ok [msgMaintain]
  ∧ msgAge ∉ [msgMaintain] := by
  exact ⟨by decide, by decide, by decide, by decide, by decide, by decide⟩

/-- C1 (amended): each of the five threshold rules contributes its advisory
exactly when its condition holds on the Python `int()`-truncated value of
the raw field (truncation toward zero; for a present value that `int()`
cannot coerce the engine raises instead), and the rules are independent, so
any subset of the five advisories may appear together. -/
theorem claim_C1_amended (data : PyDict) (s : ℚ) (a c tb th ex : Int)
    (ha : pyInt (dictGet data "age" (PyVal.vInt 0)) = .ok a)
    (hc : pyInt (dictGet data "chol" (PyVal.vInt 0)) = .ok c)
    (htb : pyInt (dictGet data "trestbps" (PyVal.vInt 0)) = .ok tb)
    (hth : pyInt (dictGet data "thalach" (PyVal.vInt 0)) = .ok th)
    (hex : pyInt (dictGet data "exang" (PyVal.vInt 0)) = .ok ex) :
    ∃ l, get_recommendation data s = .ok l ∧
      (msgAge ∈ l ↔ 60 < a) ∧ (msgChol ∈ l ↔ 240 < c) ∧ (msgBp ∈ l ↔ 140 < tb) ∧
      (msgThalach ∈ l ↔ th < 100) ∧ (msgExang ∈ l ↔ ex = 1) := by
  refine ⟨ruleAdvisories a c tb th ex ++ [finalMessage s],
    get_recommendation_ok data s a c tb th ex ha hc htb hth hex, ?_, ?_, ?_, ?_, ?_⟩
  · rw [mem_output_iff a c tb th ex s msgAge (by decide), msgAge_mem_rules]
  · rw [mem_output_iff a c tb th ex s msgChol (by decide), msgChol_mem_rules]
  · rw [mem_output_iff a c tb th ex s msgBp (by decide), msgBp_mem_rules]
  · rw [mem_output_iff a c tb th ex s msgThalach (by decide), msgThalach_mem_rules]
  · rw [mem_output_iff a c tb th ex s msgExang (by decide), msgExang_mem_rules]

/-- C1 witness: a record with integer age 70 and the other rule fields
defaulted, at risk score 0. -/
theorem claim_C1_witness :
    ∃ l, get_recommendation ([("age", PyVal.vInt 70)] : PyDict) 0 = .ok l ∧
      (msgAge ∈ l ↔ (60 : Int) < 70) ∧ (msgChol ∈ l ↔ (240 : Int) < 0) ∧
      (msgBp ∈ l ↔ (140 : Int) < 0) ∧ (msgThalach ∈ l ↔ (0 : Int) < 100) ∧
      (msgExang ∈ l ↔ (0 : Int) = 1) :=
  claim_C1_amended [("age", PyVal.vInt 70)] 0 70 0 0 0 0
    (by decide) (by decide) (by decide) (by decide) (by decide)

/-- C5 counterexample: the engine is not total — on a record whose `age`
value is the string "abc" (with `thalach` and the rest absent), the source
expression `int(data.get('age', 0))` raises `ValueError`, so
`get_recommendation` fails and returns no list at all. -/
theorem claim_C5_counterexample :
    get_recommendation ([("age", PyVal.vStr "abc")] : PyDict) 0 =
      .error ⟨"invalid literal for int() with base 10: abc"⟩ := by
  decide

/-- C5 (amended): whenever each of the five rule fields is either absent
(the defensive default 0 applies) or has an `int()`-coercible value, the
engine never fails and returns a list containing at least one string,
ending in the final overall message; when some present rule-field value is
not `int()`-coercible, the engine raises instead. -/
theorem claim_C5_amended (data : PyDict) (s : ℚ)
    (ha : ∃ n, pyInt (dictGet data "age" (PyVal.vInt 0)) = .ok n)
    (hc : ∃ n, pyInt (dictGet data "chol" (PyVal.vInt 0)) = .ok n)
    (htb : ∃ n, pyInt (dictGet data "trestbps" (PyVal.vInt 0)) = .ok n)
    (hth : ∃ n, pyInt (dictGet data "thalach" (PyVal.vInt 0)) = .ok n)
    (hex : ∃ n, pyInt (dictGet data "exang" (PyVal.vInt 0)) = .ok n) :
    ∃ l, get_recommendation data s = .ok l ∧ l ≠ [] ∧ finalMessage s ∈ l := by
  obtain ⟨a, ha⟩ := ha
  obtain ⟨c, hc⟩ := hc
  obtain ⟨tb, htb⟩ := htb
  obtain ⟨th, hth⟩ := hth
  obtain ⟨ex, hex⟩ := hex
  refine ⟨ruleAdvisories a c tb th ex ++ [finalMessage s],
    get_recommendation_ok data s a c tb th ex ha hc htb hth hex, by simp, by simp⟩

/-- C5 witness: the empty record (all five fields defaulted to 0) at risk
score 0.9. -/
theorem claim_C5_witness :
    ∃ l, get_recommendation ([] : PyDict) (mkRat 9 10) = .ok l ∧ l ≠ [] ∧
      finalMessage (mkRat 9 10) ∈ l :=
  claim_C5_amended [] (mkRat 9 10) ⟨0, by decide⟩ ⟨0, by decide⟩ ⟨0, by decide⟩
    ⟨0, by decide⟩ ⟨0, by decide⟩

/-- C7: the recommendation list is in rule-declaration order (age,
cholesterol, blood pressure, low max heart rate, exercise angina) with the
final message last; on `{age:65, chol:250, trestbps:150, thalach:90,
exang:1}` at risk score 0.8 the engine produces exactly the 5 advisories in
declared order followed by the urgent message, 6 strings in total. -/
theorem claim_C7_ordering :
    (∀ (data : PyDict) (s : ℚ) (a c tb th ex : Int),
        pyInt (dictGet data "age" (PyVal.vInt 0)) = .ok a →
        pyInt (dictGet data "chol" (PyVal.vInt 0)) = .ok c →
        pyInt (dictGet data "trestbps" (PyVal.vInt 0)) = .ok tb →
        pyInt (dictGet data "thalach" (PyVal.vInt 0)) = .ok th →
        pyInt (dictGet data "exang" (PyVal.vInt 0)) = .ok ex →
        get_recommendation data s = .ok (ruleAdvisories a c tb th ex ++ [finalMessage s]))
  ∧ get_recommendation dataAllRules (mkRat 4 5) =
      .ok [msgAge, msgChol, msgBp, msgThalach, msgExang, msgUrgent] :=
  ⟨fun data s a c tb th ex ha hc htb hth hex =>
      get_recommendation_ok data s a c tb th ex ha hc htb hth hex,
   by decide⟩

/-- C7 witness: the general ordering statement instantiated on the
all-rules record at risk score 0.8. -/
theorem claim_C7_witness :
    get_recommendation dataAllRules (mkRat 4 5) =
      .ok (ruleAdvisories 65 250 150 90 1 ++ [finalMessage (mkRat 4 5)]) :=
  claim_C7_ordering.1 dataAllRules (mkRat 4 5) 65 250 150 90 1
    (by decide) (by decide) (by decide) (by decide) (by decide)

/-- C2 counterexample: on a record with all 13 fields present but
`age = "abc"`, the route does fail, but the `ValueError` from `float()` is
caught by the blanket handler of `app.py` line 105 and surfaced as an HTTP
500 server-error response whose message names the offending value only —
not as a distinct client-input error identifying the field. -/
theorem claim_C2_counterexample :
    predict stubTransform stubPredict stubProba dataAbc =
      ⟨Body.err "could not convert string to float: abc", 500⟩
  ∧ isClientError 500 = false := by
  exact ⟨by decide, by decide⟩

/-- C2 (amended): when all 13 fields are present and some value fails
float coercion, the route fails with the `ValueError` message of the first
failing field (which names the offending value, not the field), surfaced
through the generic exception handler as HTTP 500 — a server-error status,
not a client-input (4xx) error; the response differs from the
missing-fields response in message and status but shares its generic
`{error: ...}` shape. -/
theorem claim_C2_amended (tr : List ℚ → List ℚ) (mp : List ℚ → Int)
    (mpp : List ℚ → ℚ × ℚ) (data : PyDict) (e : PyErr)
    (hall : (FEATURE_NAMES.all fun key => dictContains data key) = true)
    (hfail : floatFeatures data FEATURE_NAMES = .error e) :
    predict tr mp mpp data = ⟨Body.err e.msg, 500⟩
  ∧ predict tr mp mpp data ≠ ⟨Body.err "Missing required fields", 400⟩
  ∧ isClientError 500 = false := by
  have hp : predict tr mp mpp data = ⟨Body.err e.msg, 500⟩ := by
    unfold predict
    rw [hall, hfail]
    simp
  refine ⟨hp, ?_, by decide⟩
  rw [hp]
  simp

/-- C2 witness: the amended statement instantiated on `dataAbc` with the
deterministic stub model and scaler. -/
theorem claim_C2_witness :
    predict stubTransform stubPredict stubProba dataAbc =
      ⟨Body.err "could not convert string to float: abc", 500⟩
  ∧ predict stubTransform stubPredict stubProba dataAbc ≠
      ⟨Body.err "Missing required fields", 400⟩
  ∧ isClientError 500 = false :=
  claim_C2_amended stubTransform stubPredict stubProba dataAbc
    ⟨"could not convert string to float: abc"⟩ (by decide) (by decide)

/-- C6: when any of the 13 required field names is absent, the route
returns the `Missing required fields` error with status 400 (a
client-input error) regardless of the model and scaler — no coercion,
scaling or prediction stage is executed, since the response is a constant
independent of `tr`, `mp`, `mpp` and of every field value. -/
theorem claim_C6_missing_fields (tr : List ℚ → List ℚ) (mp : List ℚ → Int)
    (mpp : List ℚ → ℚ × ℚ) (data : PyDict) (k : String)
    (hk : k ∈ FEATURE_NAMES) (habs : List.lookup k data = none) :
    predict tr mp mpp data = ⟨Body.err "Missing required fields", 400⟩
  ∧ isClientError 400 = true := by
  have hcf : dictContains data k = false := by
    unfold dictContains
    rw [habs]
    rfl
  have hall : (FEATURE_NAMES.all fun key => dictContains data key) = false := by
    cases hAll : (FEATURE_NAMES.all fun key => dictContains data key) with
    | false => rfl
    | true =>
      have := List.all_eq_true.mp hAll k hk
      rw [hcf] at this
      cases this
  refine ⟨?_, by decide⟩
  unfold predict
  rw [hall]
  simp

/-- C6 witness: a record containing only `age`, hence missing `chol`. -/
theorem claim_C6_witness :
    predict stubTransform stubPredict stubProba ([("age", PyVal.vInt 50)] : PyDict) =
      ⟨Body.err "Missing required fields", 400⟩
  ∧ isClientError 400 = true :=
  claim_C6_missing_fields stubTransform stubPredict stubProba
    [("age", PyVal.vInt 50)] "chol" (by decide) (by decide)

/-- C8: whenever validation, coercion and recommendation generation
succeed, the composed 200 response carries the label, `risk_score = p1`,
`disease_probability = p1 * 100`, `no_disease_probability = p0 * 100`, the
tier and color of the risk classifier at `p1`, and the recommendation
list; the composition itself introduces no further failure. -/
theorem claim_C8_compose (tr : List ℚ → List ℚ) (mp : List ℚ → Int)
    (mpp : List ℚ → ℚ × ℚ) (data : PyDict) (features : List ℚ) (recs : List String)
    (hall : (FEATURE_NAMES.all fun key => dictContains data key) = true)
    (hfeat : floatFeatures data FEATURE_NAMES = .ok features)
    (hrec : get_recommendation data (mpp (tr features)).2 = .ok recs) :
    predict tr mp mpp data =
      ⟨Body.result
        { prediction := mp (tr features)
          risk_probability := (mpp (tr features)).2
          disease_probability := (mpp (tr features)).2 * 100
          no_disease_probability := (mpp (tr features)).1 * 100
          risk_level := (classifyRisk (mpp (tr features)).2).1
          color := (classifyRisk (mpp (tr features)).2).2
          recommendation := recs }, 200⟩ := by
  unfold predict
  rw [hall, hfeat]
  simp only []
  rw [hrec]
  simp

/-- C8 witness: the end-to-end record with the deterministic stub model
(`p1 = 0.2`). -/
theorem claim_C8_witness :
    predict stubTransform stubPredict stubProba dataEndToEnd =
      ⟨Body.result
        { prediction := stubPredict (stubTransform endFeatures)
          risk_probability := (stubProba (stubTransform endFeatures)).2
          disease_probability := (stubProba (stubTransform endFeatures)).2 * 100
          no_disease_probability := (stubProba (stubTransform endFeatures)).1 * 100
          risk_level := (classifyRisk (stubProba (stubTransform endFeatures)).2).1
          color := (classifyRisk (stubProba (stubTransform endFeatures)).2).2
          recommendation := [msgMaintain] }, 200⟩ :=
  claim_C8_compose stubTransform stubPredict stubProba dataEndToEnd endFeatures
    [msgMaintain] (by decide) (by decide) (by decide)

/-- C9: noninterference over extra keys — two records that agree on the 13
required field names (lookup-equal on each, all present) pass validation
identically and produce identical responses for the same model and scaler:
no pipeline stage reads a key outside the 13 required names. -/
theorem claim_C9_noninterference (tr : List ℚ → List ℚ) (mp : List ℚ → Int)
    (mpp : List ℚ → ℚ × ℚ) (data1 data2 : PyDict)
    (hpres : ∀ k ∈ FEATURE_NAMES, dictContains data1 k = true)
    (hagree : ∀ k ∈ FEATURE_NAMES, List.lookup k data1 = List.lookup k data2) :
    (FEATURE_NAMES.all fun k => dictContains data1 k) = true
  ∧ (FEATURE_NAMES.all fun k => dictContains data2 k) = true
  ∧ predict tr mp mpp data1 = predict tr mp mpp data2 := by
  have hall1 : (FEATURE_NAMES.all fun k => dictContains data1 k) = true :=
    List.all_eq_true.mpr hpres
  have hcongr := allContains_congr data1 data2 FEATURE_NAMES hagree
  have hfeat := floatFeatures_congr data1 data2 FEATURE_NAMES hagree
  have hrec : ∀ s, get_recommendation data1 s = get_recommendation data2 s := fun s =>
    get_recommendation_congr data1 data2 s
      (hagree "age" (by decide)) (hagree "chol" (by decide))
      (hagree "trestbps" (by decide)) (hagree "thalach" (by decide))
      (hagree "exang" (by decide))
  refine ⟨hall1, by rw [← hcongr]; exact hall1, ?_⟩
  unfold predict
  rw [hcongr, hfeat]
  simp only [hrec]

/-- C9 witness: the end-to-end record against the same record extended
with an extra, unrequired key. -/
theorem claim_C9_witness :
    (FEATURE_NAMES.all fun k => dictContains dataEndToEnd k) = true
  ∧ (FEATURE_NAMES.all fun k => dictContains dataExtra k) = true
  ∧ predict stubTransform stubPredict stubProba dataEndToEnd =
      predict stubTransform stubPredict stubProba dataExtra :=
  claim_C9_noninterference stubTransform stubPredict stubProba
    dataEndToEnd dataExtra (by decide) (by decide)

/-- C10: with `thalach` absent, the defensive default 0 satisfies
`thalach < 100`, so every successful engine run on such a record contains
the low-max-heart-rate advisory; by contrast, with the other four rule
fields absent their conditions are false at 0, so none of their advisories
appears — the default is behaviorally neutral for rules 1-3 and 5 but not
for rule 4. -/
theorem claim_C10_thalach_default :
    (∀ (data : PyDict) (s : ℚ) (l : List String),
        List.lookup "thalach" data = none →
        get_recommendation data s = .ok l → msgThalach ∈ l)
  ∧ (∀ (data : PyDict) (s : ℚ) (l : List String),
        List.lookup "age" data = none → List.lookup "chol" data = none →
        List.lookup "trestbps" data = none → List.lookup "exang" data = none →
        get_recommendation data s = .ok l →
        msgAge ∉ l ∧ msgChol ∉ l ∧ msgBp ∉ l ∧ msgExang ∉ l) := by
  constructor
  · intro data s l hnone h
    obtain ⟨a, c, tb, th, ex, _, _, _, hth, _, hl⟩ := get_recommendation_inv data s l h
    have hth0 : th = 0 := by
      unfold dictGet at hth
      rw [hnone] at hth
      simp [pyInt] at hth
      exact hth.symm
    subst hth0
    rw [hl]
    exact List.mem_append_left _ ((msgThalach_mem_rules a c tb 0 ex).mpr (by norm_num))
  · intro data s l h1 h2 h3 h5 h
    obtain ⟨a, c, tb, th, ex, hA, hC, hTb, _, hEx, hl⟩ := get_recommendation_inv data s l h
    have ha0 : a = 0 := by
      unfold dictGet at hA
      rw [h1] at hA
      simp [pyInt] at hA
      exact hA.symm
    have hc0 : c = 0 := by
      unfold dictGet at hC
      rw [h2] at hC
      simp [pyInt] at hC
      exact hC.symm
    have htb0 : tb = 0 := by
      unfold dictGet at hTb
      rw [h3] at hTb
      simp [pyInt] at hTb
      exact hTb.symm
    have hex0 : ex = 0 := by
      unfold dictGet at hEx
      rw [h5] at hEx
      simp [pyInt] at hEx
      exact hEx.symm
    subst ha0 hc0 htb0 hex0
    rw [hl]
    refine ⟨?_, ?_, ?_, ?_⟩
    · rw [mem_output_iff 0 0 0 th 0 s msgAge (by decide), msgAge_mem_rules]
      norm_num
    · rw [mem_output_iff 0 0 0 th 0 s msgChol (by decide), msgChol_mem_rules]
      norm_num
    · rw [mem_output_iff 0 0 0 th 0 s msgBp (by decide), msgBp_mem_rules]
      norm_num
    · rw [mem_output_iff 0 0 0 th 0 s msgExang (by decide), msgExang_mem_rules]
      norm_num

/-- C10 witness: the empty record at risk score 0 yields the thalach
advisory. -/
theorem claim_C10_witness : msgThalach ∈ [msgThalach, msgMaintain] :=
  claim_C10_thalach_default.1 [] 0 [msgThalach, msgMaintain] rfl (by decide)
